import Mathlib

/-!
Shallow embedding of the certificate issuance / verification workflow of the
digital-achievement-ledger Go backend.

Modelling conventions:
* UUIDs are `Nat`; the zero value of the Go `uuid.UUID` type is `0`.
* Timestamps are `Nat` instants; of `issued_at` only the calendar year is
  kept (`issuedAtYear`), which is all the code reads from it.
* The database is an explicit record of row lists; SQL queries become list
  operations.  `certificate_achievements` rows are `(certificate_id,
  achievement_id)` pairs in insertion order.
* Fallible paths return `Except String`; error strings are the literal
  messages of the Go code.
* The external uuid / date parsing libraries and the clock are supplied by
  an `Env` record, since the repository treats them as collaborators.
-/

/-! Example fixtures shared by the witnesses. -/

namespace Ledger

/-- Row of the `students` table (model.Student), reduced to the fields the
certificate workflow reads. -/
structure Student where
  id : Nat
  nisn : String
  fullName : String
  deriving Repr, DecidableEq

/-- Row of the `achievements` table (model.Achievement).  `createdAt` is the
creation instant; it defines the creation order of rows. -/
structure Achievement where
  id : Nat
  studentId : Nat
  competitionName : String
  organizer : String
  rank : String
  year : Nat
  createdAt : Nat
  deriving Repr, DecidableEq

/-- Row of the `certificates` table (model.Certificate). -/
structure Certificate where
  id : Nat
  studentId : Nat
  certificateNumber : String
  issuedAtYear : Nat
  issuedBy : Option Nat
  validUntil : Option Nat
  qrToken : String
  pdfUrl : Option String
  status : String
  notes : String
  updatedAt : Nat
  deriving Repr, DecidableEq

/-- Row of the `achievement_attachments` table. -/
structure AchievementAttachment where
  achievementId : Nat
  fileUrl : String
  deriving Repr, DecidableEq

/-- The stored database state. -/
structure DB where
  students : List Student
  achievements : List Achievement
  certificates : List Certificate
  certAchievements : List (Nat × Nat)
  attachments : List AchievementAttachment
  deriving Repr, DecidableEq

/-- model.AchievementWithAttachments. -/
structure AchievementWithAttachments where
  achievement : Achievement
  attachmentRows : List AchievementAttachment
  deriving Repr, DecidableEq

/-- model.CertificateDetail. -/
structure CertificateDetail where
  certificate : Certificate
  student : Student
  achievements : List AchievementWithAttachments
  deriving Repr, DecidableEq

/-- model.VerifyResponse; `none` fields render as absent (omitempty). -/
structure VerifyResponse where
  isValid : Bool
  certificate : Option Certificate
  student : Option Student
  achievements : Option (List Achievement)
  message : String
  deriving Repr, DecidableEq

/-- Positional constructor for VerifyResponse, used to keep statements
one-dimensional. -/
def mkVR (isValid : Bool) (certificate : Option Certificate) (student : Option Student)
    (achievements : Option (List Achievement)) (message : String) : VerifyResponse :=
  { isValid := isValid, certificate := certificate, student := student,
    achievements := achievements, message := message }

/-- certificateRepository.FindByID: the row of `certificates` with the given
primary key (first match of the scan; the key is unique in a well-formed
store). -/
def FindByID (db : DB) (id : Nat) : Option Certificate :=
  db.certificates.find? (fun c => c.id == id)

/-- certificateRepository.FindByQRToken: lookup on the unique `qr_token`
column. -/
def FindByQRToken (db : DB) (token : String) : Option Certificate :=
  db.certificates.find? (fun c => c.qrToken == token)

/-- The row set of the detail join
`achievements JOIN certificate_achievements ON a.id = ca.achievement_id
WHERE ca.certificate_id = $1`, enumerated in join-row insertion order. -/
def certAchievementRows (db : DB) (certId : Nat) : List Achievement :=
  db.certAchievements.filterMap (fun ca =>
    if ca.1 == certId then db.achievements.find? (fun a => a.id == ca.2) else none)

/-- One ordering consistent with `ORDER BY a.year DESC` (a merge sort on the
year key).  The SQL clause fixes only the year ordering; see
`IsYearDescResult` for the full set of orderings the query may return. -/
def sortByYearDesc (l : List Achievement) : List Achievement :=
  l.mergeSort (fun a b => decide (b.year ≤ a.year))

/-- `SELECT * FROM achievement_attachments WHERE achievement_id = $1`. -/
def attachmentsOf (db : DB) (achId : Nat) : List AchievementAttachment :=
  db.attachments.filter (fun att => att.achievementId == achId)

/-- certificateRepository.FindByIDWithDetail: certificate row, its student
row (a missing student row surfaces the sql.ErrNoRows error), and the
associated achievements ordered by year descending, each with its
attachments. -/
def FindByIDWithDetail (db : DB) (id : Nat) : Except String (Option CertificateDetail) :=
  match FindByID db id with
  | none => .ok none
  | some cert =>
    match db.students.find? (fun s => s.id == cert.studentId) with
    | none => .error "sql: no rows in result set"
    | some student =>
      let achs := sortByYearDesc (certAchievementRows db id)
      .ok (some { certificate := cert, student := student,
                  achievements := achs.map (fun a =>
                    { achievement := a, attachmentRows := attachmentsOf db a.id }) })

def msgNotFound : String := "Sertifikat tidak ditemukan. Dokumen ini mungkin tidak sah."

def msgRevoked : String := "Sertifikat ini telah dicabut dan tidak berlaku."

def msgValid : String := "Sertifikat valid dan sah dikeluarkan oleh sekolah."

/-- certificateService.Verify: three-way outcome on a public token.  The
`.ok none` detail case would be a nil-pointer dereference in the Go code; it
is modelled as an error and is unreachable on a well-formed store. -/
def Verify (db : DB) (token : String) : Except String VerifyResponse :=
  match FindByQRToken db token with
  | none => .ok (mkVR false none none none msgNotFound)
  | some cert =>
    if cert.status = "revoked" then
      .ok (mkVR false (some cert) none none msgRevoked)
    else
      match FindByIDWithDetail db cert.id with
      | .error e => .error e
      | .ok none => .error "nil certificate detail"
      | .ok (some detail) =>
        .ok (mkVR true (some cert) (some detail.student)
          (some (detail.achievements.map (fun a => a.achievement))) msgValid)

/-- Facts the SQL schema guarantees: certificate primary keys are unique and
every certificate's `student_id` references an existing student row. -/
def WF (db : DB) : Prop :=
  (db.certificates.map (fun c => c.id)).Nodup ∧
  ∀ c ∈ db.certificates, ∃ s ∈ db.students, s.id = c.studentId

instance (db : DB) : Decidable (WF db) := by
  unfold WF; infer_instance

/-- Go `fmt.Sprintf("%04d", n)` for a natural number: decimal digits,
left-padded with zeros to a minimum width of 4. -/
def padFour (n : Nat) : String :=
  let s := toString n
  if s.length < 4 then String.mk (List.replicate (4 - s.length) '0') ++ s else s

/-- utils.GenerateCertificateNumber: `421.2/SKP/{YEAR}/{INCREMENT}`.  The Go
function reads the year from the ambient clock; it is passed explicitly. -/
def GenerateCertificateNumber (year : Nat) (increment : Nat) : String :=
  "421.2/SKP/" ++ toString year ++ "/" ++ padFour increment

/-- certificateRepository.CountByYear:
`SELECT COUNT(*) FROM certificates WHERE EXTRACT(YEAR FROM issued_at) = $1`. -/
def CountByYear (db : DB) (year : Nat) : Nat :=
  (db.certificates.filter (fun c => c.issuedAtYear == year)).length

/-- model.CreateCertificateRequest. -/
structure CreateCertificateRequest where
  studentId : String
  achievementIds : List String
  validUntil : String
  notes : String
  deriving Repr, DecidableEq

/-- External collaborators and ambient effects consumed by the service and
repository: the uuid / date parsing library, the clock, the freshly drawn
certificate id and QR token, and the behaviour of the database on the next
write transaction (`fault = some 0`: the certificate INSERT fails with the
driver message `faultMsg`; `some (i+1)`: the i-th join-row INSERT fails;
`none` or out of range: every INSERT succeeds). -/
structure Env where
  parseUUID : String → Option Nat
  parseDate : String → Option Nat
  year : Nat
  now : Nat
  newId : Nat
  qrToken : String
  fault : Option Nat
  faultMsg : String

/-- The uuid-parsing loop of certificateService.Create: the first id that
fails to parse aborts with that id. -/
def parseUUIDList (p : String → Option Nat) : List String → Except String (List Nat)
  | [] => .ok []
  | s :: rest =>
    match p s with
    | none => .error s
    | some u =>
      match parseUUIDList p rest with
      | .error e => .error e
      | .ok us => .ok (u :: us)

/-- The join-row INSERT loop of certificateRepository.Create, run inside the
transaction; `i` counts the rows already inserted.  Returns the new
`(certificate_id, achievement_id)` rows in insertion order, or the driver
error of the failing INSERT. -/
def insertJoinRows (certId : Nat) (fault : Option Nat) (msg : String) :
    List Nat → Nat → Except String (List (Nat × Nat))
  | [], _ => .ok []
  | a :: rest, i =>
    if fault = some (i + 1) then .error msg
    else
      match insertJoinRows certId fault msg rest (i + 1) with
      | .error e => .error e
      | .ok rows => .ok ((certId, a) :: rows)

/-- certificateRepository.Create: BeginTx, certificate INSERT, join-row
INSERTs, Commit, with a deferred Rollback.  The result is the stored state
after the call together with the returned error: on any failure the
transaction rolls back and the stored state is exactly the input state. -/
def RepoCreate (db : DB) (cert : Certificate) (achievementIds : List Nat)
    (fault : Option Nat) (msg : String) : DB × Option String :=
  if fault = some 0 then (db, some msg)
  else
    match insertJoinRows cert.id fault msg achievementIds 0 with
    | .error e => (db, some e)
    | .ok rows =>
      ({ db with certificates := db.certificates ++ [cert],
                 certAchievements := db.certAchievements ++ rows }, none)

/-- certificateRepository.UpdatePDFURL:
`UPDATE certificates SET pdf_url = $1 WHERE id = $2`. -/
def UpdatePDFURL (db : DB) (id : Nat) (url : String) : DB :=
  { db with certificates := db.certificates.map (fun c =>
      if c.id = id then { c with pdfUrl := some url } else c) }

/-- certificateRepository.Revoke:
`UPDATE certificates SET status = 'revoked', updated_at = $1 WHERE id = $2`. -/
def RepoRevoke (db : DB) (id : Nat) (now : Nat) : DB :=
  { db with certificates := db.certificates.map (fun c =>
      if c.id = id then { c with status := "revoked", updatedAt := now } else c) }

/-- The certificate record built by certificateService.Create before the
`valid_until` backfill: note that a failing parse of the issuer id is
discarded and the zero uuid recorded. -/
def newCertificate (env : Env) (db : DB) (req : CreateCertificateRequest)
    (issuedBy : String) (studentUID : Nat) : Certificate :=
  { id := env.newId, studentId := studentUID,
    certificateNumber := GenerateCertificateNumber env.year (CountByYear db env.year + 1),
    issuedAtYear := env.year,
    issuedBy := some ((env.parseUUID issuedBy).getD 0),
    validUntil := none, qrToken := env.qrToken, pdfUrl := none,
    status := "active", notes := req.notes, updatedAt := env.now }

def errInvalidStudentId : String := "student_id tidak valid"

def errNoAchievements : String := "minimal 1 prestasi harus dipilih"

def errInvalidValidUntil : String := "format valid_until tidak valid, gunakan YYYY-MM-DD"

/-- certificateService.Create: validation, numbering, token, record build,
repository write, detail re-read.  The fire-and-forget PDF job runs after
the return value is fixed and does not affect it. -/
def ServiceCreate (env : Env) (db : DB) (req : CreateCertificateRequest)
    (issuedBy : String) : Except String (DB × Option CertificateDetail) :=
  match env.parseUUID req.studentId with
  | none => .error errInvalidStudentId
  | some studentUID =>
    if req.achievementIds = [] then .error errNoAchievements
    else
      match parseUUIDList env.parseUUID req.achievementIds with
      | .error s => .error ("achievement_id tidak valid: " ++ s)
      | .ok achievementUIDs =>
        let cert0 := newCertificate env db req issuedBy studentUID
        match (if req.validUntil = "" then Except.ok cert0
               else
                 match env.parseDate req.validUntil with
                 | none => Except.error errInvalidValidUntil
                 | some d => Except.ok { cert0 with validUntil := some d }) with
        | .error e => .error e
        | .ok cert =>
          match RepoCreate db cert achievementUIDs env.fault env.faultMsg with
          | (_, some e) => .error e
          | (db2, none) =>
            match FindByIDWithDetail db2 cert.id with
            | .error e => .error e
            | .ok d => .ok (db2, d)

/-- The stored state after a successful issuance: the new certificate row
plus one join row per validated achievement id. -/
def createdDB (env : Env) (db : DB) (req : CreateCertificateRequest) (issuedBy : String)
    (studentUID : Nat) (auids : List Nat) : DB :=
  { db with
      certificates := db.certificates ++ [newCertificate env db req issuedBy studentUID],
      certAchievements := db.certAchievements ++ auids.map (fun a => (env.newId, a)) }

/-- The detail record re-read by certificateService.Create right after a
successful repository write. -/
def createdDetail (env : Env) (db : DB) (req : CreateCertificateRequest) (issuedBy : String)
    (studentUID : Nat) (auids : List Nat) (stud : Student) : CertificateDetail :=
  { certificate := newCertificate env db req issuedBy studentUID,
    student := stud,
    achievements :=
      (sortByYearDesc (certAchievementRows (createdDB env db req issuedBy studentUID auids)
          (newCertificate env db req issuedBy studentUID).id)).map
        (fun a => { achievement := a,
                    attachmentRows := attachmentsOf
                      (createdDB env db req issuedBy studentUID auids) a.id }) }

def exStudent : Student := { id := 1, nisn := "1234567890", fullName := "Budi Santoso" }

def exStudent2 : Student := { id := 2, nisn := "0987654321", fullName := "Siti Aminah" }

def exAch1 : Achievement :=
  { id := 10, studentId := 1, competitionName := "Olimpiade Matematika",
    organizer := "Dinas Pendidikan", rank := "Juara 1", year := 2024, createdAt := 1 }

def exAch2 : Achievement :=
  { id := 11, studentId := 1, competitionName := "Lomba Sains",
    organizer := "Dinas Pendidikan", rank := "Juara 2", year := 2024, createdAt := 2 }

def exAch3 : Achievement :=
  { id := 12, studentId := 2, competitionName := "Lomba Catur",
    organizer := "Dinas Pendidikan", rank := "Juara 3", year := 2023, createdAt := 3 }

def exCertA : Certificate :=
  { id := 100, studentId := 1, certificateNumber := "421.2/SKP/2024/0001",
    issuedAtYear := 2024, issuedBy := some 5, validUntil := none, qrToken := "tok-a",
    pdfUrl := none, status := "active", notes := "", updatedAt := 0 }

def exCertR : Certificate :=
  { id := 101, studentId := 1, certificateNumber := "421.2/SKP/2024/0002",
    issuedAtYear := 2024, issuedBy := some 5, validUntil := none, qrToken := "tok-r",
    pdfUrl := none, status := "revoked", notes := "", updatedAt := 0 }

def exDB : DB :=
  { students := [exStudent, exStudent2],
    achievements := [exAch1, exAch2, exAch3],
    certificates := [exCertA, exCertR],
    certAchievements := [(100, 10), (100, 11), (101, 10)],
    attachments := [] }

/-- Table-driven stand-in for the external uuid parsing library. -/
def exParse : String → Option Nat := fun s =>
  if s = "s1" then some 1 else if s = "s2" then some 2
  else if s = "a1" then some 10 else if s = "a2" then some 11
  else if s = "a3" then some 12 else if s = "op" then some 5 else none

def exEnv : Env :=
  { parseUUID := exParse, parseDate := fun _ => none, year := 2024, now := 99,
    newId := 500, qrToken := "tok-new", fault := none, faultMsg := "" }

def exReq : CreateCertificateRequest :=
  { studentId := "s1", achievementIds := ["a1", "a2"], validUntil := "", notes := "catatan" }

def exDB0 : DB :=
  { students := [exStudent], achievements := [exAch1, exAch2], certificates := [],
    certAchievements := [], attachments := [] }

def exDB1 : DB := { exDB0 with certificates := [exCertA] }

def exCertNew : Certificate := { exCertA with id := 500, qrToken := "tok-new" }

/-- utils.truncate from the PDF renderer.  Go strings are byte sequences:
`len` and slicing count bytes, so the argument is the byte list of the
string.  `none` models the runtime panic `slice bounds out of range` that
fires when `max - 3` is negative while the string is longer than `max`;
bytes 46 are the three `.` characters appended. -/
def truncate (s : List Nat) (max : Int) : Option (List Nat) :=
  if (s.length : Int) ≤ max then some s
  else if 3 ≤ max then some (s.take (max - 3).toNat ++ [46, 46, 46])
  else none

def exDB5 : DB :=
  { students := [exStudent, exStudent2], achievements := [exAch3], certificates := [],
    certAchievements := [], attachments := [] }

def exReq5 : CreateCertificateRequest :=
  { studentId := "s1", achievementIds := ["a3"], validUntil := "", notes := "" }

def errStudentNotFound : String := "siswa tidak ditemukan"

/-- HTTP-level outcome of the certificate creation endpoint. -/
inductive HttpResult where
  | created (detail : Option CertificateDetail)
  | notFound (msg : String)
  | badRequest (msg : String)
  deriving Repr, DecidableEq

/-- CertificateHandler.Create after JSON decoding: presence checks, service
call, error classification.  Only ErrStudentNotFound maps to a 404; every
other service error becomes a generic 400 bad request. -/
def HandlerCreate (env : Env) (db : DB) (req : CreateCertificateRequest)
    (issuedBy : String) : HttpResult :=
  if req.studentId = "" ∨ req.achievementIds = [] then .badRequest "Validasi gagal"
  else
    match ServiceCreate env db req issuedBy with
    | .error e => if e = errStudentNotFound then .notFound e else .badRequest e
    | .ok (_, d) => .created d

/-- The outcome kind the API caller can distinguish (constructor index). -/
def kindOf : HttpResult → Nat
  | .created _ => 0
  | .notFound _ => 1
  | .badRequest _ => 2

def uniqueViolationMsg : String :=
  "pq: duplicate key value violates unique constraint \"certificates_certificate_number_key\""

def exEnvU : Env := { exEnv with fault := some 0, faultMsg := uniqueViolationMsg }

def exEnvG : Env := { exEnv with fault := some 0, faultMsg := "pq: connection refused" }

/-- The mutations the repository exposes on stored certificates after the
initial state: issuing a further certificate, backfilling a PDF URL, and
revoking. -/
inductive CertOp where
  | create (cert : Certificate) (achievementIds : List Nat) (fault : Option Nat) (msg : String)
  | updatePDF (id : Nat) (url : String)
  | revoke (id : Nat) (now : Nat)

/-- Effect of one repository operation on the stored state. -/
def applyOp (db : DB) : CertOp → DB
  | .create cert achievementIds fault msg => (RepoCreate db cert achievementIds fault msg).1
  | .updatePDF id url => UpdatePDFURL db id url
  | .revoke id now => RepoRevoke db id now

/-- The stored state after a sequence of repository operations. -/
def runOps (db : DB) (ops : List CertOp) : DB := ops.foldl applyOp db

/-- The fields of a certificate row that never change after creation. -/
def Immutable (c c2 : Certificate) : Prop :=
  c2.id = c.id ∧ c2.studentId = c.studentId ∧ c2.certificateNumber = c.certificateNumber ∧
  c2.qrToken = c.qrToken ∧ c2.issuedAtYear = c.issuedAtYear ∧ c2.issuedBy = c.issuedBy ∧
  c2.validUntil = c.validUntil ∧ c2.notes = c.notes

/-- The set of row orders `ORDER BY a.year DESC` permits: any permutation of
the joined rows that is sorted by year descending (SQL fixes no order among
rows with equal years). -/
def IsYearDescResult (rows out : List Achievement) : Prop :=
  rows.Perm out ∧ out.Pairwise (fun a b => b.year ≤ a.year)

/-- The within-year tie-break asserted by the spec: rows of equal year appear
in creation order. -/
def CreationOrderWithinYear (out : List Achievement) : Prop :=
  out.Pairwise (fun a b => a.year = b.year → a.createdAt ≤ b.createdAt)

def exDB9 : DB :=
  { students := [exStudent], achievements := [exAch1, exAch2], certificates := [exCertA],
    certAchievements := [(100, 10), (100, 11)], attachments := [] }

/-! Theorems. -/

lemma find?_id_of_nodup {l : List Certificate}
    (h : (l.map (fun c => c.id)).Nodup) {c : Certificate} (hc : c ∈ l) :
    l.find? (fun x => x.id == c.id) = some c := by
  induction l with
  | nil => cases hc
  | cons a t ih =>
    simp only [List.map_cons, List.nodup_cons] at h
    rcases List.mem_cons.mp hc with rfl | hm
    · exact List.find?_cons_of_pos _ (by simp)
    · have hne : a.id ≠ c.id := by
        intro he
        exact h.1 (he ▸ List.mem_map_of_mem (fun c => c.id) hm)
      rw [List.find?_cons_of_neg _ (by simp [hne])]
      exact ih h.2 hm

/-- C1: for every token, Verify returns exactly one of three outcomes and no
error in the expected cases: unknown token gives is_valid=false with no
certificate, student, or achievement fields; a revoked certificate's token
gives is_valid=false with the certificate populated but student and
achievements absent; an active certificate's token gives is_valid=true with
certificate, student, and the full achievement list populated. -/
theorem verify_three_outcomes (db : DB) (token : String) (hwf : WF db) :
    (FindByQRToken db token = none →
      Verify db token = .ok (mkVR false none none none msgNotFound)) ∧
    (∀ cert, FindByQRToken db token = some cert → cert.status = "revoked" →
      Verify db token = .ok (mkVR false (some cert) none none msgRevoked)) ∧
    (∀ cert, FindByQRToken db token = some cert → cert.status = "active" →
      ∃ s, db.students.find? (fun x => x.id == cert.studentId) = some s ∧
        Verify db token = .ok (mkVR true (some cert) (some s)
          (some (sortByYearDesc (certAchievementRows db cert.id))) msgValid)) := by
  refine ⟨?_, ?_, ?_⟩
  · intro h
    simp [Verify, h]
  · intro cert hc hs
    simp [Verify, hc, hs]
  · intro cert hc hs
    have hcm : cert ∈ db.certificates := List.mem_of_find?_eq_some hc
    have hid : FindByID db cert.id = some cert := find?_id_of_nodup hwf.1 hcm
    obtain ⟨s0, hs0m, hs0id⟩ := hwf.2 cert hcm
    have hsome : (db.students.find? (fun x => x.id == cert.studentId)).isSome := by
      rw [List.find?_isSome]
      exact ⟨s0, hs0m, by simp [hs0id]⟩
    obtain ⟨stud, hstud⟩ := Option.isSome_iff_exists.mp hsome
    refine ⟨stud, hstud, ?_⟩
    have hnr : (cert.status = "revoked") = False := by
      rw [hs]; simp
    simp only [Verify, hc, hnr, if_false, FindByIDWithDetail, hid, hstud]
    have hcomp : ((fun a => a.achievement) ∘
        fun a => ({ achievement := a, attachmentRows := attachmentsOf db a.id } :
          AchievementWithAttachments)) = id := by
      funext a; rfl
    simp [List.map_map, hcomp]

lemma insertJoinRows_ok_eq {certId : Nat} {fault : Option Nat} {msg : String} :
    ∀ {l : List Nat} {i : Nat} {rows : List (Nat × Nat)},
      insertJoinRows certId fault msg l i = .ok rows →
      rows = l.map (fun a => (certId, a)) := by
  intro l
  induction l with
  | nil =>
    intro i rows h
    simp only [insertJoinRows] at h
    cases h
    rfl
  | cons a rest ih =>
    intro i rows h
    simp only [insertJoinRows] at h
    by_cases hf : fault = some (i + 1)
    · rw [if_pos hf] at h; cases h
    · rw [if_neg hf] at h
      cases hrec : insertJoinRows certId fault msg rest (i + 1) with
      | error e => rw [hrec] at h; cases h
      | ok rows2 =>
        rw [hrec] at h
        cases h
        rw [List.map_cons, ih hrec]

lemma insertJoinRows_error_msg {certId : Nat} {fault : Option Nat} {msg : String} :
    ∀ {l : List Nat} {i : Nat} {e : String},
      insertJoinRows certId fault msg l i = .error e → e = msg := by
  intro l
  induction l with
  | nil => intro i e h; simp only [insertJoinRows] at h; cases h
  | cons a rest ih =>
    intro i e h
    simp only [insertJoinRows] at h
    by_cases hf : fault = some (i + 1)
    · rw [if_pos hf] at h; cases h; rfl
    · rw [if_neg hf] at h
      cases hrec : insertJoinRows certId fault msg rest (i + 1) with
      | error e2 => rw [hrec] at h; cases h; exact ih hrec
      | ok rows2 => rw [hrec] at h; cases h

lemma insertJoinRows_fires (certId : Nat) (fault : Option Nat) (msg : String) :
    ∀ (l : List Nat) (i : Nat), (∃ j, j < l.length ∧ fault = some (i + j + 1)) →
      insertJoinRows certId fault msg l i = .error msg := by
  intro l
  induction l with
  | nil =>
    rintro i ⟨j, hj, _⟩
    simp at hj
  | cons a rest ih =>
    rintro i ⟨j, hj, hf⟩
    cases j with
    | zero =>
      simp only [insertJoinRows]
      rw [if_pos hf]
    | succ j2 =>
      simp only [insertJoinRows]
      have hne : ¬ fault = some (i + 1) := by
        rw [hf]
        simp only [Option.some.injEq]
        omega
      rw [if_neg hne,
        ih (i + 1) ⟨j2, by simp only [List.length_cons] at hj; omega,
          by rw [hf]; exact congrArg some (by omega)⟩]

lemma insertJoinRows_none (certId : Nat) (msg : String) :
    ∀ (l : List Nat) (i : Nat),
      insertJoinRows certId none msg l i = .ok (l.map (fun a => (certId, a))) := by
  intro l
  induction l with
  | nil => intro i; simp [insertJoinRows]
  | cons a rest ih => intro i; simp [insertJoinRows, ih]

/-- C2: repository Create is atomic: when the returned error is nil the
certificate row and exactly one join row per achievement id have been
appended; when any insert fails the transaction rolls back and the stored
state is exactly the input state; and an injected failure at the certificate
insert or at any join insert within range does make the call fail. -/
theorem repo_create_atomic (db : DB) (cert : Certificate) (achievementIds : List Nat)
    (fault : Option Nat) (msg : String) (_hne : achievementIds ≠ []) :
    ((RepoCreate db cert achievementIds fault msg).2 = none →
      (RepoCreate db cert achievementIds fault msg).1.certificates =
        db.certificates ++ [cert] ∧
      (RepoCreate db cert achievementIds fault msg).1.certAchievements =
        db.certAchievements ++ achievementIds.map (fun a => (cert.id, a)) ∧
      (RepoCreate db cert achievementIds fault msg).1.certAchievements.length =
        db.certAchievements.length + achievementIds.length) ∧
    ((RepoCreate db cert achievementIds fault msg).2 ≠ none →
      (RepoCreate db cert achievementIds fault msg).1 = db) ∧
    ((fault = some 0 ∨ ∃ j, j < achievementIds.length ∧ fault = some (j + 1)) →
      (RepoCreate db cert achievementIds fault msg).2 = some msg) := by
  by_cases h0 : fault = some 0
  · refine ⟨?_, ?_, ?_⟩ <;> simp [RepoCreate, h0]
  · cases hins : insertJoinRows cert.id fault msg achievementIds 0 with
    | error e =>
      have he : e = msg := insertJoinRows_error_msg hins
      subst he
      refine ⟨?_, ?_, ?_⟩ <;> simp [RepoCreate, h0, hins]
    | ok rows =>
      refine ⟨?_, ?_, ?_⟩
      · intro _
        have hrows := insertJoinRows_ok_eq hins
        subst hrows
        refine ⟨?_, ?_, ?_⟩ <;> simp [RepoCreate, h0, hins]
      · intro hsnd
        exfalso
        apply hsnd
        simp [RepoCreate, h0, hins]
      · rintro (h | ⟨j, hj, hfj⟩)
        · exact absurd h h0
        · have hfire := insertJoinRows_fires cert.id fault msg achievementIds 0
            ⟨j, hj, by rw [hfj]; exact congrArg some (by omega)⟩
          rw [hins] at hfire
          cases hfire

lemma serviceCreate_happy (env : Env) (db : DB) (req : CreateCertificateRequest)
    (issuedBy : String) (studentUID : Nat) (auids : List Nat) (stud : Student)
    (h1 : env.parseUUID req.studentId = some studentUID)
    (h2 : ¬ req.achievementIds = [])
    (h3 : parseUUIDList env.parseUUID req.achievementIds = .ok auids)
    (h4 : req.validUntil = "")
    (h5 : env.fault = none)
    (h6 : ∀ c ∈ db.certificates, c.id ≠ env.newId)
    (h7 : db.students.find? (fun s => s.id == studentUID) = some stud) :
    ∃ detail : CertificateDetail,
      ServiceCreate env db req issuedBy =
        .ok (createdDB env db req issuedBy studentUID auids, some detail) ∧
      detail.certificate = newCertificate env db req issuedBy studentUID ∧
      detail.student = stud := by
  have hrepo : RepoCreate db (newCertificate env db req issuedBy studentUID) auids
      env.fault env.faultMsg = (createdDB env db req issuedBy studentUID auids, none) := by
    simp only [RepoCreate, h5]
    rw [insertJoinRows_none]
    simp [createdDB, newCertificate]
  have h6f : db.certificates.find?
      (fun c => c.id == (newCertificate env db req issuedBy studentUID).id) = none := by
    rw [List.find?_eq_none]
    intro c hc
    simp [newCertificate, h6 c hc]
  have hfind : FindByID (createdDB env db req issuedBy studentUID auids)
      (newCertificate env db req issuedBy studentUID).id =
      some (newCertificate env db req issuedBy studentUID) := by
    unfold FindByID createdDB
    rw [List.find?_append, h6f]
    simp
  have hstud2 : (createdDB env db req issuedBy studentUID auids).students.find?
      (fun s => s.id == (newCertificate env db req issuedBy studentUID).studentId) =
      some stud := h7
  have hdet : FindByIDWithDetail (createdDB env db req issuedBy studentUID auids)
      (newCertificate env db req issuedBy studentUID).id =
      .ok (some (createdDetail env db req issuedBy studentUID auids stud)) := by
    simp only [FindByIDWithDetail, hfind, hstud2]
    rfl
  refine ⟨createdDetail env db req issuedBy studentUID auids stud, ?_, rfl, rfl⟩
  simp only [ServiceCreate, h1, if_neg h2, h3, h4, if_pos, hrepo, hdet]

theorem verify_three_outcomes_witness :
    Verify exDB "tok-r" = .ok (mkVR false (some exCertR) none none msgRevoked) :=
  (verify_three_outcomes exDB "tok-r" (by decide)).2.1 exCertR (by decide) (by decide)

theorem repo_create_atomic_witness :
    (RepoCreate exDB exCertNew [10] (some 1) "pq: boom").2 = some "pq: boom" :=
  (repo_create_atomic exDB exCertNew [10] (some 1) "pq: boom" (by decide)).2.2
    (Or.inr ⟨0, by decide, rfl⟩)

/-- C3: an issuance in calendar year Y with K certificates already issued in
that year receives the number `421.2/SKP/<Y>/<K+1 zero-padded to 4 digits>`. -/
theorem create_number_sequential (env : Env) (db : DB) (req : CreateCertificateRequest)
    (issuedBy : String) (studentUID : Nat) (auids : List Nat) (stud : Student) (K : Nat)
    (hK : CountByYear db env.year = K)
    (h1 : env.parseUUID req.studentId = some studentUID)
    (h2 : ¬ req.achievementIds = [])
    (h3 : parseUUIDList env.parseUUID req.achievementIds = .ok auids)
    (h4 : req.validUntil = "")
    (h5 : env.fault = none)
    (h6 : ∀ c ∈ db.certificates, c.id ≠ env.newId)
    (h7 : db.students.find? (fun s => s.id == studentUID) = some stud) :
    ∃ db2 detail, ServiceCreate env db req issuedBy = .ok (db2, some detail) ∧
      detail.certificate.certificateNumber =
        "421.2/SKP/" ++ toString env.year ++ "/" ++ padFour (K + 1) := by
  obtain ⟨detail, hok, hcert, _⟩ :=
    serviceCreate_happy env db req issuedBy studentUID auids stud h1 h2 h3 h4 h5 h6 h7
  refine ⟨_, detail, hok, ?_⟩
  rw [hcert]
  simp [newCertificate, GenerateCertificateNumber, hK]

theorem create_number_sequential_witness :
    (∃ db2 detail, ServiceCreate exEnv exDB0 exReq "op" = .ok (db2, some detail) ∧
      detail.certificate.certificateNumber = "421.2/SKP/2024/0001") ∧
    (∃ db2 detail, ServiceCreate exEnv exDB1 exReq "op" = .ok (db2, some detail) ∧
      detail.certificate.certificateNumber = "421.2/SKP/2024/0002") := by
  constructor
  · obtain ⟨db2, detail, hok, hnum⟩ :=
      create_number_sequential exEnv exDB0 exReq "op" 1 [10, 11] exStudent 0
        (by decide) (by decide) (by decide) rfl (by decide) rfl
        (by decide) (by decide)
    exact ⟨db2, detail, hok, by rw [hnum]; rfl⟩
  · obtain ⟨db2, detail, hok, hnum⟩ :=
      create_number_sequential exEnv exDB1 exReq "op" 1 [10, 11] exStudent 1
        (by decide) (by decide) (by decide) rfl (by decide) rfl
        (by decide) (by decide)
    exact ⟨db2, detail, hok, by rw [hnum]; rfl⟩

/-- C4 counterexample: truncate is not total and not character-based.
`[97, 98, 99, 100]` is "abcd": truncating it to width 1 panics in Go
(`s[:-2]`), modelled as `none`.  The 12-byte list is the UTF-8 encoding of
six copies of U+00E9; truncated to width 5 the code cuts after 2 bytes
(one character) while the claim asks for the first 5−3 = 2 characters
(4 bytes). -/
theorem truncate_counterexample :
    truncate [97, 98, 99, 100] 1 = none ∧
    truncate [195, 169, 195, 169, 195, 169, 195, 169, 195, 169, 195, 169] 5 =
      some [195, 169, 46, 46, 46] ∧
    [195, 169, 46, 46, 46] ≠ [195, 169, 195, 169] ++ [46, 46, 46] := by decide

/-- C4 (amended): for a column width of at least 3, a byte string longer
than the width is cut to its first width−3 bytes followed by "...", and the
result is exactly as wide as the column.  Truncation counts bytes, not
characters, and a width below 3 with a longer string panics. -/
theorem truncate_fits (s : List Nat) (max : Int) (h3 : 3 ≤ max)
    (hlong : (s.length : Int) > max) :
    truncate s max = some (s.take (max - 3).toNat ++ [46, 46, 46]) ∧
    (s.take (max - 3).toNat).length = (max - 3).toNat ∧
    ((s.take (max - 3).toNat ++ [46, 46, 46]).length : Int) = max := by
  have hnotle : ¬ (s.length : Int) ≤ max := by omega
  have hmin : (max - 3).toNat ≤ s.length := by omega
  refine ⟨?_, ?_, ?_⟩
  · unfold truncate
    rw [if_neg hnotle, if_pos h3]
  · rw [List.length_take, Nat.min_eq_left hmin]
  · rw [List.length_append, List.length_take, Nat.min_eq_left hmin]
    simp only [List.length_cons, List.length_nil]
    omega

theorem truncate_fits_witness :
    truncate (List.replicate 40 97) 30 =
      some ((List.replicate 40 97).take ((30 : Int) - 3).toNat ++ [46, 46, 46]) ∧
    ((List.replicate 40 97).take ((30 : Int) - 3).toNat).length = ((30 : Int) - 3).toNat ∧
    (((List.replicate 40 97).take ((30 : Int) - 3).toNat ++ [46, 46, 46]).length : Int) = 30 :=
  truncate_fits (List.replicate 40 97) 30 (by decide) (by decide)

/-- C5 counterexample: the orchestration layer accepts an issuance whose
referenced achievement belongs to a different student: achievement 12
exists (so every storage constraint is satisfied and the fault-free run is
the real one) but belongs to student 2, while the certificate is for
student 1; the request succeeds instead of being rejected. -/
theorem create_ownership_not_checked :
    (∀ a ∈ exDB5.achievements, a.id = 12 → ¬ a.studentId = 1) ∧
    (∃ a ∈ exDB5.achievements, a.id = 12) ∧
    (∃ db2 detail, ServiceCreate exEnv exDB5 exReq5 "op" = .ok (db2, some detail)) := by
  refine ⟨by decide, by decide, ?_⟩
  obtain ⟨detail, hok, _, _⟩ :=
    serviceCreate_happy exEnv exDB5 exReq5 "op" 1 [12] exStudent
      (by decide) (by decide) rfl rfl rfl (by decide) (by decide)
  exact ⟨_, detail, hok⟩

/-- C5 (amended): before persisting, Create validates only that student_id
parses, that the achievement list is non-empty, and that every achievement
id parses; ownership of the referenced achievements is never checked: the
success conjunct assumes they exist (a dangling reference would instead
fail inside the repository write, through the storage foreign key on
certificate_achievements.achievement_id) but carries no hypothesis tying
them to the certificate's student. -/
theorem create_validation_scope (env : Env) (db : DB) (req : CreateCertificateRequest)
    (issuedBy : String) (studentUID : Nat) (auids : List Nat) (stud : Student)
    (h1 : env.parseUUID req.studentId = some studentUID)
    (h2 : ¬ req.achievementIds = [])
    (h3 : parseUUIDList env.parseUUID req.achievementIds = .ok auids)
    (h4 : req.validUntil = "")
    (h5 : env.fault = none)
    (h6 : ∀ c ∈ db.certificates, c.id ≠ env.newId)
    (h7 : db.students.find? (fun s => s.id == studentUID) = some stud)
    (_h8 : ∀ aid ∈ auids, ∃ a ∈ db.achievements, a.id = aid) :
    (∃ db2 detail, ServiceCreate env db req issuedBy = .ok (db2, some detail)) ∧
    (∀ r : CreateCertificateRequest, env.parseUUID r.studentId = none →
      ServiceCreate env db r issuedBy = .error errInvalidStudentId) ∧
    (∀ r : CreateCertificateRequest, env.parseUUID r.studentId = some studentUID →
      r.achievementIds = [] →
      ServiceCreate env db r issuedBy = .error errNoAchievements) ∧
    (∀ r s2 rest, env.parseUUID r.studentId = some studentUID →
      r.achievementIds = s2 :: rest → env.parseUUID s2 = none →
      ServiceCreate env db r issuedBy = .error ("achievement_id tidak valid: " ++ s2)) := by
  refine ⟨?_, ?_, ?_, ?_⟩
  · obtain ⟨detail, hok, _, _⟩ :=
      serviceCreate_happy env db req issuedBy studentUID auids stud h1 h2 h3 h4 h5 h6 h7
    exact ⟨_, detail, hok⟩
  · intro r hr
    simp [ServiceCreate, hr]
  · intro r hsid hre
    simp [ServiceCreate, hsid, hre]
  · intro r s2 rest hsid hach hbads
    simp [ServiceCreate, hsid, hach, parseUUIDList, hbads]

theorem create_validation_scope_witness :
    ∃ db2 detail, ServiceCreate exEnv exDB0 exReq "op" = .ok (db2, some detail) :=
  (create_validation_scope exEnv exDB0 exReq "op" 1 [10, 11] exStudent
    (by decide) (by decide) rfl rfl rfl (by decide) (by decide) (by decide)).1

/-- C6 counterexample: when the certificate INSERT fails with the driver
message of the uniqueness constraint on the certificate number, the
creation path returns the raw driver string and the handler classifies it
exactly like an unrelated storage failure — the same generic bad-request
kind, not a distinct retryable kind. -/
theorem create_unique_violation_counterexample :
    ServiceCreate exEnvU exDB0 exReq "op" = .error uniqueViolationMsg ∧
    ServiceCreate exEnvG exDB0 exReq "op" = .error "pq: connection refused" ∧
    kindOf (HandlerCreate exEnvU exDB0 exReq "op") =
      kindOf (HandlerCreate exEnvG exDB0 exReq "op") ∧
    HandlerCreate exEnvU exDB0 exReq "op" = .badRequest uniqueViolationMsg :=
  ⟨rfl, rfl, rfl, rfl⟩

/-- C6 (amended): a uniqueness violation at the certificate INSERT
propagates as the unmodified driver error through Create, and the handler
maps it to the generic bad-request outcome, as for any other non-not-found
failure. -/
theorem create_unique_violation_generic (env : Env) (db : DB)
    (req : CreateCertificateRequest) (issuedBy : String) (studentUID : Nat) (auids : List Nat)
    (h1 : env.parseUUID req.studentId = some studentUID)
    (h2 : ¬ req.achievementIds = [])
    (h3 : parseUUIDList env.parseUUID req.achievementIds = .ok auids)
    (h4 : req.validUntil = "")
    (hf : env.fault = some 0)
    (hs : ¬ req.studentId = "")
    (hm : env.faultMsg ≠ errStudentNotFound) :
    ServiceCreate env db req issuedBy = .error env.faultMsg ∧
    HandlerCreate env db req issuedBy = .badRequest env.faultMsg := by
  have hrc : RepoCreate db (newCertificate env db req issuedBy studentUID) auids
      env.fault env.faultMsg = (db, some env.faultMsg) := by
    simp [RepoCreate, hf]
  have hsvc : ServiceCreate env db req issuedBy = .error env.faultMsg := by
    simp only [ServiceCreate, h1, if_neg h2, h3, h4, if_pos, hrc]
  have hcond : ¬ (req.studentId = "" ∨ req.achievementIds = []) := by
    rintro (h | h)
    · exact hs h
    · exact h2 h
  exact ⟨hsvc, by simp only [HandlerCreate, if_neg hcond, hsvc, if_neg hm]⟩

theorem create_unique_violation_generic_witness :
    ServiceCreate exEnvU exDB0 exReq "op" = .error exEnvU.faultMsg ∧
    HandlerCreate exEnvU exDB0 exReq "op" = .badRequest exEnvU.faultMsg :=
  create_unique_violation_generic exEnvU exDB0 exReq "op" 1 [10, 11]
    (by decide) (by decide) rfl rfl rfl (by decide) (by decide)

lemma immutable_rfl (c : Certificate) : Immutable c c :=
  ⟨rfl, rfl, rfl, rfl, rfl, rfl, rfl, rfl⟩

lemma immutable_trans {a b c : Certificate} (h1 : Immutable a b) (h2 : Immutable b c) :
    Immutable a c := by
  obtain ⟨e1, e2, e3, e4, e5, e6, e7, e8⟩ := h1
  obtain ⟨f1, f2, f3, f4, f5, f6, f7, f8⟩ := h2
  exact ⟨f1.trans e1, f2.trans e2, f3.trans e3, f4.trans e4,
    f5.trans e5, f6.trans e6, f7.trans e7, f8.trans e8⟩

lemma repoCreate_certs (db : DB) (cert : Certificate) (achievementIds : List Nat)
    (fault : Option Nat) (msg : String) :
    (RepoCreate db cert achievementIds fault msg).1.certificates = db.certificates ++ [cert] ∨
    (RepoCreate db cert achievementIds fault msg).1.certificates = db.certificates := by
  by_cases h0 : fault = some 0
  · right; simp [RepoCreate, h0]
  · cases hins : insertJoinRows cert.id fault msg achievementIds 0 with
    | error e => right; simp [RepoCreate, h0, hins]
    | ok rows => left; simp [RepoCreate, h0, hins]

lemma applyOp_step (db : DB) (op : CertOp) {c : Certificate} (hc : c ∈ db.certificates) :
    ∃ c2 ∈ (applyOp db op).certificates, Immutable c c2 ∧
      (c.status = "revoked" → c2.status = "revoked") := by
  cases op with
  | create cert achievementIds fault msg =>
    refine ⟨c, ?_, immutable_rfl c, fun h => h⟩
    show c ∈ (RepoCreate db cert achievementIds fault msg).1.certificates
    rcases repoCreate_certs db cert achievementIds fault msg with h | h
    · rw [h]; exact List.mem_append_left _ hc
    · rw [h]; exact hc
  | updatePDF id url =>
    have hm := List.mem_map_of_mem
      (fun x => if x.id = id then { x with pdfUrl := some url } else x) hc
    have hm2 : (if c.id = id then { c with pdfUrl := some url } else c) ∈
        db.certificates.map
          (fun x => if x.id = id then { x with pdfUrl := some url } else x) := hm
    by_cases he : c.id = id
    · rw [if_pos he] at hm2
      exact ⟨{ c with pdfUrl := some url }, hm2,
        ⟨rfl, rfl, rfl, rfl, rfl, rfl, rfl, rfl⟩, fun h => h⟩
    · rw [if_neg he] at hm2
      exact ⟨c, hm2, immutable_rfl c, fun h => h⟩
  | revoke id now =>
    have hm := List.mem_map_of_mem
      (fun x => if x.id = id then { x with status := "revoked", updatedAt := now } else x) hc
    have hm2 : (if c.id = id then { c with status := "revoked", updatedAt := now } else c) ∈
        db.certificates.map
          (fun x => if x.id = id then { x with status := "revoked", updatedAt := now } else x) := hm
    by_cases he : c.id = id
    · rw [if_pos he] at hm2
      exact ⟨{ c with status := "revoked", updatedAt := now }, hm2,
        ⟨rfl, rfl, rfl, rfl, rfl, rfl, rfl, rfl⟩, fun _ => rfl⟩
    · rw [if_neg he] at hm2
      exact ⟨c, hm2, immutable_rfl c, fun h => h⟩

lemma runOps_preserves (ops : List CertOp) : ∀ (db : DB) {c : Certificate},
    c ∈ db.certificates →
    ∃ c2 ∈ (runOps db ops).certificates, Immutable c c2 ∧
      (c.status = "revoked" → c2.status = "revoked") := by
  induction ops with
  | nil => exact fun db _ hc => ⟨_, hc, immutable_rfl _, fun h => h⟩
  | cons op rest ih =>
    intro db c hc
    obtain ⟨c1, h1m, h1i, h1s⟩ := applyOp_step db op hc
    obtain ⟨c2, h2m, h2i, h2s⟩ := ih (applyOp db op) h1m
    exact ⟨c2, h2m, immutable_trans h1i h2i, fun h => h2s (h1s h)⟩

/-- C8: after creation a certificate's id, student, number, token, issuance
data and notes never change under any sequence of Create / UpdatePDFURL /
Revoke operations, and once its status is revoked it stays revoked;
UpdatePDFURL changes only the pdf_url field and Revoke changes only status
and updated_at, each leaving non-matching rows untouched. -/
theorem certificate_immutable_and_revoked_terminal (db : DB) :
    (∀ ops : List CertOp, ∀ c ∈ db.certificates,
      ∃ c2 ∈ (runOps db ops).certificates, Immutable c c2 ∧
        (c.status = "revoked" → c2.status = "revoked")) ∧
    (∀ id url, ∀ c ∈ db.certificates,
      ∃ c2 ∈ (UpdatePDFURL db id url).certificates, Immutable c c2 ∧
        c2.status = c.status ∧ c2.updatedAt = c.updatedAt ∧ (¬ c.id = id → c2 = c)) ∧
    (∀ id now, ∀ c ∈ db.certificates,
      ∃ c2 ∈ (RepoRevoke db id now).certificates, Immutable c c2 ∧
        c2.pdfUrl = c.pdfUrl ∧ (¬ c.id = id → c2 = c)) := by
  refine ⟨fun ops c hc => runOps_preserves ops db hc, ?_, ?_⟩
  · intro id url c hc
    have hm := List.mem_map_of_mem
      (fun x => if x.id = id then { x with pdfUrl := some url } else x) hc
    have hm2 : (if c.id = id then { c with pdfUrl := some url } else c) ∈
        db.certificates.map
          (fun x => if x.id = id then { x with pdfUrl := some url } else x) := hm
    by_cases he : c.id = id
    · rw [if_pos he] at hm2
      exact ⟨{ c with pdfUrl := some url }, hm2,
        ⟨rfl, rfl, rfl, rfl, rfl, rfl, rfl, rfl⟩, rfl, rfl, fun hne => absurd he hne⟩
    · rw [if_neg he] at hm2
      exact ⟨c, hm2, immutable_rfl c, rfl, rfl, fun _ => rfl⟩
  · intro id now c hc
    have hm := List.mem_map_of_mem
      (fun x => if x.id = id then { x with status := "revoked", updatedAt := now } else x) hc
    have hm2 : (if c.id = id then { c with status := "revoked", updatedAt := now } else c) ∈
        db.certificates.map
          (fun x => if x.id = id then { x with status := "revoked", updatedAt := now } else x) := hm
    by_cases he : c.id = id
    · rw [if_pos he] at hm2
      exact ⟨{ c with status := "revoked", updatedAt := now }, hm2,
        ⟨rfl, rfl, rfl, rfl, rfl, rfl, rfl, rfl⟩, rfl, fun hne => absurd he hne⟩
    · rw [if_neg he] at hm2
      exact ⟨c, hm2, immutable_rfl c, rfl, fun _ => rfl⟩

theorem certificate_immutable_witness :
    ∃ c2 ∈ (runOps exDB [CertOp.updatePDF 101 "u", CertOp.revoke 100 7,
        CertOp.create exCertNew [10] none "x"]).certificates,
      Immutable exCertR c2 ∧ (exCertR.status = "revoked" → c2.status = "revoked") :=
  (certificate_immutable_and_revoked_terminal exDB).1
    [CertOp.updatePDF 101 "u", CertOp.revoke 100 7, CertOp.create exCertNew [10] none "x"]
    exCertR (by decide)

/-- C9 counterexample: certificate 100 references two achievements of the
same year created in the order 10 then 11; the reversed list is a result
the detail query may return (it is year-descending), yet it violates the
claimed within-year creation order. -/
theorem achievements_order_counterexample :
    IsYearDescResult (certAchievementRows exDB9 100) [exAch2, exAch1] ∧
    ¬ CreationOrderWithinYear [exAch2, exAch1] := by
  constructor
  · exact ⟨by decide, by decide⟩
  · unfold CreationOrderWithinYear
    decide

lemma sortByYearDesc_sorted (l : List Achievement) :
    (sortByYearDesc l).Pairwise (fun a b => b.year ≤ a.year) := by
  have h := @List.sorted_mergeSort Achievement (fun a b => decide (b.year ≤ a.year))
    (by intro a b c hab hbc; simp only [decide_eq_true_eq] at hab hbc ⊢; omega)
    (by intro a b; simp only [Bool.or_eq_true, decide_eq_true_eq]; omega)
    l
  exact h.imp (fun hab => by simpa using hab)

lemma sortByYearDesc_perm (l : List Achievement) : (sortByYearDesc l).Perm l :=
  List.mergeSort_perm l _

/-- C9 (amended): every detail lookup returns the certificate's achievements
as some year-descending permutation of the join rows; the query has no
secondary sort key, so the order within a year is not specified. -/
theorem detail_achievements_year_desc (db : DB) (cid : Nat) (cert : Certificate)
    (stud : Student)
    (hc : FindByID db cid = some cert)
    (hs : db.students.find? (fun s => s.id == cert.studentId) = some stud) :
    ∃ detail, FindByIDWithDetail db cid = .ok (some detail) ∧
      IsYearDescResult (certAchievementRows db cid)
        (detail.achievements.map (fun a => a.achievement)) := by
  have hmm : ((sortByYearDesc (certAchievementRows db cid)).map
      (fun a => ({ achievement := a, attachmentRows := attachmentsOf db a.id } :
        AchievementWithAttachments))).map (fun a => a.achievement) =
      sortByYearDesc (certAchievementRows db cid) := by
    rw [List.map_map]
    have hid : ((fun a => a.achievement) ∘
        fun a => ({ achievement := a, attachmentRows := attachmentsOf db a.id } :
          AchievementWithAttachments)) = id := funext fun a => rfl
    rw [hid, List.map_id]
  refine ⟨{ certificate := cert, student := stud,
            achievements := (sortByYearDesc (certAchievementRows db cid)).map
              (fun a => { achievement := a, attachmentRows := attachmentsOf db a.id }) },
    ?_, ?_⟩
  · simp only [FindByIDWithDetail, hc, hs]
  · refine ⟨?_, ?_⟩
    · rw [hmm]
      exact (sortByYearDesc_perm _).symm
    · rw [hmm]
      exact sortByYearDesc_sorted _

theorem detail_achievements_year_desc_witness :
    ∃ detail, FindByIDWithDetail exDB9 100 = .ok (some detail) ∧
      IsYearDescResult (certAchievementRows exDB9 100)
        (detail.achievements.map (fun a => a.achievement)) :=
  detail_achievements_year_desc exDB9 100 exCertA exStudent (by decide) (by decide)

end Ledger
